import Mathlib

/-!
Verification of the animation coordinator of the portal landing page.

The definitions below are a shallow embedding of the JavaScript source:
JS numbers are modelled as rationals, DOM/WebGL writes as explicit state,
the browser clock and Math.random as parameters, and the
requestAnimationFrame loops as structural recursion over the list of
frame timestamps delivered to them.
-/

namespace Portal

/-- Componentwise container for a THREE.Vector3. -/
structure V3 where
  x : ℚ
  y : ℚ
  z : ℚ
deriving DecidableEq, Repr

/-- Scalar linear interpolation, the componentwise formula behind
THREE lerpVectors: v1 + (v2 - v1) * alpha. -/
def lerpQ (a b t : ℚ) : ℚ := a + (b - a) * t

/-- THREE.Vector3.lerpVectors applied componentwise. -/
def lerpV (a b : V3) (t : ℚ) : V3 :=
  ⟨lerpQ a.x b.x t, lerpQ a.y b.y t, lerpQ a.z b.z t⟩

/-- The per-frame progress computation appearing in the enterPortal flight
loop, the camera return loop and animateCameraTo:
`Math.min(1, (time - startTime) / duration)`. -/
def clampedProgress (startTime duration t : ℚ) : ℚ :=
  min 1 ((t - startTime) / duration)

/-- The inline decelerating easing used by animateActivation,
animateCameraReturn and camera.js animateCameraTo:
`1 - Math.pow(1 - progress, 3)`. -/
def easeOutCubic (p : ℚ) : ℚ := 1 - (1 - p) ^ 3

/-- Flight duration constant of enterPortal: `const duration = 2500`. -/
def flightDuration : ℚ := 2500

/-- Flight target of enterPortal: `new THREE.Vector3(0, 0, -50)`. -/
def flightTarget : V3 := ⟨0, 0, -50⟩

/-- Mutable state read and written by one animateFrame tick of the
enterPortal flight: camera position and fov, the inline opacity string of
the flash overlay, the timestamps at which the flash block executed, the
timestamp of the completing frame (if any) and a cursor into the
Math.random stream used by the tunnel camera shake. -/
structure FlightState where
  camPos : V3
  fov : ℚ
  flashOpacity : String
  flashFires : List ℚ
  completedAt : Option ℚ
  randIdx : ℕ
deriving DecidableEq, Repr

/-- One frame of the enterPortal flight loop (animateFrame in the source):
lerp the camera towards the target, apply the tunnel fov narrowing and
random shake while 0.05 <= progress < 0.85, and execute the micro flash
block on a frame with progress >= 0.85 guarded by the inline opacity of
the flash element being "0" or "". -/
def animateFrame (rand : ℕ → ℚ) (startTime : ℚ) (startPos : V3)
    (flashPresent : Bool) (t : ℚ) (s : FlightState) : FlightState :=
  let progress := clampedProgress startTime flightDuration t
  let basePos := lerpV startPos flightTarget progress
  let tunnelProgress := (progress - 0.05) / 0.8
  { camPos :=
      if 0.05 ≤ progress ∧ progress < 0.85 then
        ⟨basePos.x + (rand s.randIdx - 0.5) * (tunnelProgress * 0.02),
         basePos.y + (rand (s.randIdx + 1) - 0.5) * (tunnelProgress * 0.02),
         basePos.z + (rand (s.randIdx + 2) - 0.5) * (tunnelProgress * 0.02)⟩
      else basePos,
    fov :=
      if 0.05 ≤ progress ∧ progress < 0.85 then 75 - tunnelProgress * 30
      else s.fov,
    flashOpacity :=
      if 0.85 ≤ progress ∧ flashPresent = true ∧
          (s.flashOpacity = "0" ∨ s.flashOpacity = "") then "1"
      else s.flashOpacity,
    flashFires :=
      if 0.85 ≤ progress ∧ flashPresent = true ∧
          (s.flashOpacity = "0" ∨ s.flashOpacity = "") then s.flashFires ++ [t]
      else s.flashFires,
    completedAt :=
      if 1 ≤ progress then some t else s.completedAt,
    randIdx :=
      if 0.05 ≤ progress ∧ progress < 0.85 then s.randIdx + 3 else s.randIdx }

/-- The enterPortal flight loop over the delivered frame timestamps: each
frame runs animateFrame; the loop requests another frame only while
progress < 1, mirroring `if (progress < 1) requestAnimationFrame(...)`. -/
def flightRun (rand : ℕ → ℚ) (startTime : ℚ) (startPos : V3)
    (flashPresent : Bool) : List ℚ → FlightState → FlightState
  | [], s => s
  | t :: ts, s =>
      let s1 := animateFrame rand startTime startPos flashPresent t s
      if 1 ≤ clampedProgress startTime flightDuration t then s1
      else flightRun rand startTime startPos flashPresent ts s1

/-- Specification-side description of the trigger point: the first frame
timestamp whose progress is at least the 0.85 flash threshold, as a
(at most singleton) list. -/
def specFirstThresholdFrame (startTime : ℚ) (ts : List ℚ) : List ℚ :=
  match ts.find?
      (fun t => decide ((0.85 : ℚ) ≤ clampedProgress startTime flightDuration t)) with
  | some t => [t]
  | none => []

/-- Camera return duration: `const returnDuration = 800`. -/
def returnDuration : ℚ := 800

/-- The animateCameraReturn loop: every frame lerps from the captured
currentPos towards startPos with the eased clamped progress and resets the
fov to 75; the loop ends at the first frame with progress >= 1. Returns the
final camera position and whether the completion branch ran. -/
def animateCameraReturn (currentPos startPos : V3) (returnStart : ℚ) :
    List ℚ → V3 → V3 × Bool
  | [], pos => (pos, false)
  | t :: ts, _ =>
      let progress := clampedProgress returnStart returnDuration t
      let pos := lerpV currentPos startPos (easeOutCubic progress)
      if 1 ≤ progress then (pos, true)
      else animateCameraReturn currentPos startPos returnStart ts pos

/-- State of the whole activation run as seen by the interaction module:
the flight state plus the three activation flags, the number of times the
completion menu was shown, and the console diagnostics log. -/
structure SysState where
  flight : FlightState
  isAnimating : Bool
  portalActivated : Bool
  entering : Bool
  menuShown : ℕ
  log : List String
deriving DecidableEq, Repr

/-- Diagnostic line printed by the failsafe timeout. -/
def failsafeDiagnostic : String :=
  "FAILSAFE: Animation timeout - forciere Rueckkehr"

/-- The failsafe scheduled by enterPortal at duration + 2000 ms: if the
entering flag is still set it logs a diagnostic, copies the saved start
position back to the camera, resets the fov to the base value 75 and
clears all three activation flags; otherwise it does nothing. -/
def failsafe (startPos : V3) (s : SysState) : SysState :=
  if s.entering then
    { s with
      flight := { s.flight with camPos := startPos, fov := 75 },
      entering := false, isAnimating := false, portalActivated := false,
      log := s.log ++ [failsafeDiagnostic] }
  else s

/-- The full flight-to-menu pipeline of enterPortal: run the flight loop;
if it reached a completing frame, fade the flash out, clear entering, run
the camera return animation, and on its completion execute
resetPortalToFullVisibility (show the menu once, reset the fov to 75 via
the per-frame writes, and clear all activation flags after the 200 ms
buffer). If the flight never completes, nothing further runs. -/
def portalRun (rand : ℕ → ℚ) (startTime : ℚ) (startPos : V3)
    (flashPresent : Bool) (fts : List ℚ) (returnStart : ℚ) (rts : List ℚ)
    (s0 : SysState) : SysState :=
  let f := flightRun rand startTime startPos flashPresent fts s0.flight
  match f.completedAt with
  | none => { s0 with flight := f }
  | some _ =>
      let f1 := { f with flashOpacity := "0",
                         fov := if rts.isEmpty then f.fov else 75 }
      let r := animateCameraReturn f1.camPos startPos returnStart rts f1.camPos
      let s1 := { s0 with flight := { f1 with camPos := r.1 }, entering := false }
      if r.2 then
        { s1 with menuShown := s1.menuShown + 1,
                  isAnimating := false, portalActivated := false,
                  entering := false }
      else s1

/-- One-shot side effects emitted by activatePortal and enterPortal,
in the order the source attempts them. -/
inductive Effect where
  | portalActivationSound
  | portalActivationShake
  | portalActivationBurst
  | hintHidden
  | hyperspaceSound
  | hyperspaceShake
  | hyperspaceExplosion
  | tunnelActivated
  | flightStarted
  | colorFadeStarted
deriving DecidableEq, Repr

/-- Presence of the dynamically loaded optional effect modules
(window.audioModule, window.shakeModule, window.particleModule). -/
structure Modules where
  audio : Bool
  shake : Bool
  particle : Bool
deriving DecidableEq, Repr

/-- The interactionStats diagnostics object of the interaction module. -/
structure InteractionStats where
  clicks : ℕ
  successful : ℕ
  failed : ℕ
  lastError : Option String
deriving DecidableEq, Repr

/-- Module-level state of the interaction module: the three activation
flags, the diagnostics object, and the log of side effects fired. -/
structure InteractionState where
  isAnimating : Bool
  portalActivated : Bool
  entering : Bool
  stats : InteractionStats
  effects : List Effect
deriving DecidableEq, Repr

/-- Side effects attempted by activatePortal before starting the flight:
activation sound, activation shake, activation particle burst (each only
when the module is present), then hiding the hint overlay. -/
def activationEvents (m : Modules) : List Effect :=
  (if m.audio then [.portalActivationSound] else []) ++
  (if m.shake then [.portalActivationShake] else []) ++
  (if m.particle then [.portalActivationBurst] else []) ++
  [.hintHidden]

/-- Side effects attempted by enterPortal when it accepts: hyperspace
sound, shake and explosion (per available module), tunnel activation and
the start of the flight animation loop. -/
def enterPortalEvents (m : Modules) : List Effect :=
  (if m.audio then [.hyperspaceSound] else []) ++
  (if m.shake then [.hyperspaceShake] else []) ++
  (if m.particle then [.hyperspaceExplosion] else []) ++
  [.tunnelActivated, .flightStarted]

/-- Embeds the guard and side effects of enterPortal (part_001 lines 653-707):
a call while entering is set returns immediately; otherwise the flag is
set and the hyperspace effects, tunnel and flight loop are started. -/
def enterPortal (m : Modules) (s : InteractionState) : InteractionState :=
  if s.entering then s
  else { s with entering := true, effects := s.effects ++ enterPortalEvents m }

/-- Embeds activatePortal (part_001 lines 552-643): the guard returns
immediately while isAnimating or portalActivated is set; otherwise both
flags are set, the activation effects fire, enterPortal starts the flight
and the portal colour fade animation begins. -/
def activatePortal (m : Modules) (s : InteractionState) : InteractionState :=
  if s.isAnimating ∨ s.portalActivated then s
  else
    let s1 := { s with isAnimating := true, portalActivated := true,
                       effects := s.effects ++ activationEvents m }
    let s2 := enterPortal m s1
    { s2 with effects := s2.effects ++ [.colorFadeStarted] }

/-- Shared shape of the failure diagnostics of the pointerdown handler:
interactionStats.failed++ and interactionStats.lastError = msg. -/
def recordFailure (msg : String) (s : InteractionState) : InteractionState :=
  { s with stats := { s.stats with failed := s.stats.failed + 1, lastError := some msg } }

/-- Embeds the pointerdown handler of initializePortalInteraction
(part_001 lines 489-539). The raycaster hit test is abstracted into the
boolean hit. The handler bumps the click counter, rejects while
isAnimating, activates on a hit when the portal is not yet activated, and
otherwise only records a failure diagnostic. -/
def pointerDown (m : Modules) (hit : Bool) (s : InteractionState) :
    InteractionState :=
  let s := { s with stats := { s.stats with clicks := s.stats.clicks + 1 } }
  if s.isAnimating then recordFailure "Animation laeuft bereits" s
  else if hit = true ∧ s.portalActivated = false then
    activatePortal m
      { s with stats := { s.stats with successful := s.stats.successful + 1 } }
  else if hit = false then recordFailure "Portal nicht getroffen" s
  else recordFailure "Portal bereits aktiviert" s

/-- Configuration of one tick of the main.js render loop effect section:
which optional modules are present and which of the three updates would
throw this tick. -/
structure EffectsTick where
  shakePresent : Bool
  particlePresent : Bool
  shakeThrows : Bool
  particleThrows : Bool
  hoverThrows : Bool
deriving DecidableEq, Repr

/-- Which calls of the tick actually ran, and whether the frame was
rendered afterwards. -/
structure TickResult where
  shakeUpdated : Bool
  particlesUpdated : Bool
  hoverUpdated : Bool
  rendered : Bool
deriving DecidableEq, Repr

/-- Embeds the effect-update section of main.js animate (lines 304-325):
a single try block runs updateShake, updateParticleExplosions and
updateHoverEffects in order; the first throw aborts the rest of the block,
the shared catch swallows it, and composer.render() always runs after. -/
def animateEffects (tk : EffectsTick) : TickResult :=
  let shakeRan := tk.shakePresent
  let thrown1 := tk.shakePresent && tk.shakeThrows
  let particlesRan := !thrown1 && tk.particlePresent
  let thrown2 := thrown1 || (particlesRan && tk.particleThrows)
  let hoverRan := !thrown2
  { shakeUpdated := shakeRan, particlesUpdated := particlesRan,
    hoverUpdated := hoverRan, rendered := true }

/-- Embeds calculateIntensity from src/js/modules/shake.js lines 222-249.
Math.sin, Math.PI and the non-integer power Math.pow(x, 1.5) of the
acceleration branch are kept abstract as msin, mpi and pow15; the integer
powers Math.pow(x, 2) and Math.pow(x, 4) are exact squaring and fourth
power. -/
def calculateIntensity (msin : ℚ → ℚ) (pow15 : ℚ → ℚ) (mpi : ℚ)
    (progress : ℚ) (pattern : String) : ℚ :=
  if pattern = "impact" then (1 - progress) ^ 2
  else if pattern = "acceleration" then
    if progress < 0.3 then progress / 0.3 * 0.5
    else if progress < 0.7 then 0.5 + (progress - 0.3) / 0.4 * 0.5
    else pow15 (1 - (progress - 0.7) / 0.3)
  else if pattern = "continuous" then 0.6 + msin (progress * mpi * 8) * 0.4
  else if pattern = "flash" then (1 - progress) ^ 4
  else 1 - progress

/-- The loading overlay DOM state: whether the bar and text elements were
found, the bar width in percent and the status text. -/
structure LoadingUI where
  barPresent : Bool
  textPresent : Bool
  barWidth : ℚ
  statusText : String
deriving DecidableEq, Repr

/-- Embeds setLoadingProgress from src/js/modules/loading.js lines 64-79:
a non-null percentage writes the clamped width
`Math.max(0, Math.min(100, percentage))`; the status text is written only
when the text argument is truthy (a non-empty string). -/
def setLoadingProgress (percentage : Option ℚ) (text : Option String)
    (ui : LoadingUI) : LoadingUI :=
  let ui1 :=
    match percentage with
    | some p =>
        if ui.barPresent then { ui with barWidth := max 0 (min 100 p) }
        else ui
    | none => ui
  match text with
  | some s => if s ≠ "" ∧ ui1.textPresent then { ui1 with statusText := s }
              else ui1
  | none => ui1

/-- Parallax amplitudes of CAMERA_CONFIG in src/js/modules/camera.js. -/
structure Amplitude where
  x : ℚ
  y : ℚ
deriving DecidableEq, Repr

/-- Parallax speeds of CAMERA_CONFIG in src/js/modules/camera.js. -/
structure Speed where
  x : ℚ
  y : ℚ
deriving DecidableEq, Repr

/-- The parallax block of CAMERA_CONFIG. -/
structure ParallaxConfig where
  amplitude : Amplitude
  speed : Speed
deriving DecidableEq, Repr

/-- CAMERA_CONFIG from src/js/modules/camera.js lines 56-68. -/
def CAMERA_CONFIG : ParallaxConfig := ⟨⟨0.12, 0.08⟩, ⟨0.2, 0.12⟩⟩

/-- Position and current lookAt target of a camera. -/
structure CameraPose where
  pos : V3
  lookTarget : V3
deriving DecidableEq, Repr

/-- Embeds updateCameraMovement from src/js/modules/camera.js lines 79-87:
sinusoidal parallax on x and y (Math.sin abstracted as msin), then
camera.lookAt(0, 0, 0). -/
def updateCameraMovement (msin : ℚ → ℚ) (cam : CameraPose) (time : ℚ) :
    CameraPose :=
  { pos := ⟨msin (time * CAMERA_CONFIG.speed.x) * CAMERA_CONFIG.amplitude.x,
            msin (time * CAMERA_CONFIG.speed.y) * CAMERA_CONFIG.amplitude.y,
            cam.pos.z⟩,
    lookTarget := ⟨0, 0, 0⟩ }

/-- C4: the per-tick progress value min(1, elapsed/duration) is
non-decreasing under a monotone clock, equals exactly 1 for every tick at
or after the moment elapsed >= duration, and a linear 0 -> 100 channel of
duration 1000 ms sampled at t = 0, 250, 500, 750, 1000 ms reports the
exact linear interpolation values 0, 25, 50, 75, 100. -/
theorem c4_progress_monotone_and_linear :
    (∀ startTime d t1 t2 : ℚ, 0 < d → t1 ≤ t2 →
      clampedProgress startTime d t1 ≤ clampedProgress startTime d t2) ∧
    (∀ startTime d t : ℚ, 0 < d → startTime + d ≤ t →
      clampedProgress startTime d t = 1) ∧
    ([(0 : ℚ), 250, 500, 750, 1000].map
        (fun t => lerpQ 0 100 (clampedProgress 0 1000 t)) =
      [0, 25, 50, 75, 100]) := by
  refine ⟨?_, ?_, ?_⟩
  · intro st d t1 t2 hd h
    unfold clampedProgress
    exact min_le_min le_rfl ((div_le_div_iff_of_pos_right hd).mpr (by linarith))
  · intro st d t hd h
    unfold clampedProgress
    exact min_eq_left ((one_le_div hd).mpr (by linarith))
  · norm_num [clampedProgress, lerpQ, min_def]

/-- Witness for C4 at concrete ticks of the 1000 ms channel. -/
theorem c4_witness :
    clampedProgress 0 1000 250 ≤ clampedProgress 0 1000 500 ∧
    clampedProgress 0 1000 1200 = 1 :=
  ⟨c4_progress_monotone_and_linear.1 0 1000 250 500 (by norm_num) (by norm_num),
   c4_progress_monotone_and_linear.2.1 0 1000 1200 (by norm_num) (by norm_num)⟩

/-- C6: the ease-out-cubic easing computes exactly 1 - (1-p)^3, maps 0 to
0 and 1 to 1, and is monotonically non-decreasing on [0, 1]. -/
theorem c6_ease_out_cubic :
    (∀ p : ℚ, easeOutCubic p = 1 - (1 - p) ^ 3) ∧
    easeOutCubic 0 = 0 ∧ easeOutCubic 1 = 1 ∧
    (∀ a b : ℚ, 0 ≤ a → a ≤ b → b ≤ 1 → easeOutCubic a ≤ easeOutCubic b) := by
  refine ⟨fun p => rfl, by norm_num [easeOutCubic], by norm_num [easeOutCubic], ?_⟩
  intro a b ha hab hb
  unfold easeOutCubic
  nlinarith [sq_nonneg (1 - a), sq_nonneg (1 - b), sq_nonneg (2 - a - b),
    mul_nonneg (sub_nonneg.mpr hab) (sq_nonneg (2 - a - b)),
    mul_nonneg (sub_nonneg.mpr hab) (sq_nonneg (1 - a)),
    mul_nonneg (sub_nonneg.mpr hab) (sq_nonneg (1 - b))]

/-- Witness for C6: monotonicity at the concrete pair 1/4 <= 1/2. -/
theorem c6_witness : easeOutCubic (1 / 4) ≤ easeOutCubic (1 / 2) :=
  c6_ease_out_cubic.2.2.2 (1 / 4) (1 / 2) (by norm_num) (by norm_num) (by norm_num)

/-- C7: for every progress p in [0, 1] the intensity multiplier of the
impact shake pattern is (1-p)^2 and that of the flash pattern is (1-p)^4,
whatever the ambient Math.sin, Math.pow(x, 1.5) and Math.PI denote. -/
theorem c7_intensity_envelopes (msin pow15 : ℚ → ℚ) (mpi p : ℚ)
    (h0 : 0 ≤ p) (h1 : p ≤ 1) :
    calculateIntensity msin pow15 mpi p "impact" = (1 - p) ^ 2 ∧
    calculateIntensity msin pow15 mpi p "flash" = (1 - p) ^ 4 := by
  constructor
  · unfold calculateIntensity
    rw [if_pos rfl]
  · unfold calculateIntensity
    rw [if_neg (by decide), if_neg (by decide), if_neg (by decide), if_pos rfl]

/-- Witness for C7 at p = 1/2. -/
theorem c7_witness :
    calculateIntensity (fun _ => 0) (fun _ => 0) 0 (1 / 2) "impact" = 1 / 4 ∧
    calculateIntensity (fun _ => 0) (fun _ => 0) 0 (1 / 2) "flash" = 1 / 16 := by
  have h := c7_intensity_envelopes (fun _ => 0) (fun _ => 0) 0 (1 / 2)
    (by norm_num) (by norm_num)
  exact ⟨by rw [h.1]; norm_num, by rw [h.2]; norm_num⟩

/-- C9: setLoadingProgress writes the bar width as exactly
clamp(percentage, 0, 100) for every numeric percentage (hence never below
0 or above 100), leaves the width unchanged on a null percentage, and
updates the status text only when a non-empty text is supplied. -/
theorem c9_loading_progress (ui : LoadingUI) (p : ℚ) (txt : Option String)
    (hb : ui.barPresent = true) (ht : ui.textPresent = true) :
    ((setLoadingProgress (some p) txt ui).barWidth = max 0 (min 100 p)) ∧
    (0 ≤ (setLoadingProgress (some p) txt ui).barWidth ∧
      (setLoadingProgress (some p) txt ui).barWidth ≤ 100) ∧
    ((setLoadingProgress none txt ui).barWidth = ui.barWidth) ∧
    ((setLoadingProgress (some p) none ui).statusText = ui.statusText) ∧
    ((setLoadingProgress (some p) (some "") ui).statusText = ui.statusText) ∧
    (∀ s, s ≠ "" → (setLoadingProgress (some p) (some s) ui).statusText = s) := by
  have hclamp : (0 : ℚ) ≤ max 0 (min 100 p) ∧ max 0 (min 100 p) ≤ 100 :=
    ⟨le_max_left _ _, max_le (by norm_num) (min_le_left _ _)⟩
  have hbar : ∀ t, (setLoadingProgress (some p) t ui).barWidth = max 0 (min 100 p) := by
    intro t
    cases t with
    | none => simp [setLoadingProgress, hb]
    | some s =>
        by_cases hs : s = ""
        · simp [setLoadingProgress, hb, hs]
        · simp [setLoadingProgress, hb, hs, ht]
  refine ⟨hbar txt, ?_, ?_, ?_, ?_, ?_⟩
  · rw [hbar txt]; exact hclamp
  · cases txt with
    | none => simp [setLoadingProgress]
    | some s =>
        by_cases hs : s = ""
        · simp [setLoadingProgress, hs]
        · simp [setLoadingProgress, hs, ht]
  · simp [setLoadingProgress, hb]
  · simp [setLoadingProgress, hb]
  · intro s hs
    simp [setLoadingProgress, hb, hs, ht]

/-- Witness for C9: an out-of-range call with percentage 150 renders the
bar at exactly 100 percent. -/
theorem c9_witness :
    (setLoadingProgress (some 150) (some "Laden")
      ⟨true, true, 42, "x"⟩).barWidth = 100 := by
  have h := (c9_loading_progress ⟨true, true, 42, "x"⟩ 150 (some "Laden")
    rfl rfl).1
  rw [h]; norm_num

/-- C10: updateCameraMovement always sets x = sin(t*0.2)*0.12 and
y = sin(t*0.12)*0.08, so the parallax offset is bounded by 0.12 and 0.08,
and the camera is re-aimed at the origin. -/
theorem c10_parallax_bounded (msin : ℚ → ℚ) (hs : ∀ x, |msin x| ≤ 1)
    (cam : CameraPose) (t : ℚ) :
    (updateCameraMovement msin cam t).pos.x = msin (t * 0.2) * 0.12 ∧
    (updateCameraMovement msin cam t).pos.y = msin (t * 0.12) * 0.08 ∧
    |(updateCameraMovement msin cam t).pos.x| ≤ 0.12 ∧
    |(updateCameraMovement msin cam t).pos.y| ≤ 0.08 ∧
    (updateCameraMovement msin cam t).lookTarget = ⟨0, 0, 0⟩ := by
  have hx : (updateCameraMovement msin cam t).pos.x = msin (t * 0.2) * 0.12 := rfl
  have hy : (updateCameraMovement msin cam t).pos.y = msin (t * 0.12) * 0.08 := rfl
  refine ⟨hx, hy, ?_, ?_, rfl⟩
  · rw [hx, abs_mul]
    have h12 : |(0.12 : ℚ)| = 0.12 := by norm_num
    rw [h12]
    nlinarith [hs (t * 0.2), abs_nonneg (msin (t * 0.2))]
  · rw [hy, abs_mul]
    have h08 : |(0.08 : ℚ)| = 0.08 := by norm_num
    rw [h08]
    nlinarith [hs (t * 0.12), abs_nonneg (msin (t * 0.12))]

/-- Witness for C10 with the constant-zero sine at t = 3. -/
theorem c10_witness :
    (updateCameraMovement (fun _ => 0) ⟨⟨0, 0, 6⟩, ⟨0, 0, 0⟩⟩ 3).pos.x = 0 ∧
    (updateCameraMovement (fun _ => 0) ⟨⟨0, 0, 6⟩, ⟨0, 0, 0⟩⟩ 3).lookTarget =
      ⟨0, 0, 0⟩ := by
  have h := c10_parallax_bounded (fun _ => 0) (fun x => by norm_num)
    ⟨⟨0, 0, 6⟩, ⟨0, 0, 0⟩⟩ 3
  exact ⟨by rw [h.1]; norm_num, h.2.2.2.2⟩

/-- C1: an activation attempt while isAnimating or portalActivated is set
is a complete no-op of activatePortal (identical state, no effects, no
second flight), and a pointer-down while active leaves the activation
flags, the entering flag and the effect log untouched. -/
theorem c1_single_activation (m : Modules) (s : InteractionState) (hit : Bool)
    (h : s.isAnimating = true ∨ s.portalActivated = true) :
    activatePortal m s = s ∧
    (pointerDown m hit s).isAnimating = s.isAnimating ∧
    (pointerDown m hit s).portalActivated = s.portalActivated ∧
    (pointerDown m hit s).entering = s.entering ∧
    (pointerDown m hit s).effects = s.effects := by
  constructor
  · rcases h with h | h <;> simp [activatePortal, h]
  · by_cases hA : s.isAnimating = true
    · simp [pointerDown, hA, recordFailure]
    · have hP : s.portalActivated = true := by
        rcases h with h | h
        · exact absurd h hA
        · exact h
      cases hit <;> simp [pointerDown, hA, hP, recordFailure]

/-- Witness for C1: a concrete in-flight state is left untouched. -/
theorem c1_witness :
    activatePortal ⟨true, true, true⟩
        ⟨true, false, false, ⟨0, 0, 0, none⟩, []⟩ =
      ⟨true, false, false, ⟨0, 0, 0, none⟩, []⟩ :=
  (c1_single_activation ⟨true, true, true⟩
    ⟨true, false, false, ⟨0, 0, 0, none⟩, []⟩ true (Or.inl rfl)).1

/-- C3 counterexample: on a render-loop tick where the shake module is
present and its update throws, the particle update and the hover update of
that same tick are NOT invoked (they sit in the same try block), contrary
to the claim; the frame is still rendered. -/
theorem c3_counterexample :
    (animateEffects ⟨true, true, true, false, false⟩).particlesUpdated = false ∧
    (animateEffects ⟨true, true, true, false, false⟩).hoverUpdated = false ∧
    (animateEffects ⟨true, true, true, false, false⟩).rendered = true := by
  decide

/-- Once the opacity of the flash overlay is "1", a frame can never execute the
flash block again, so the flight loop adds no further firings. -/
theorem flightRun_noRefire (rand : ℕ → ℚ) (st : ℚ) (sp : V3) (fp : Bool) :
    ∀ (ts : List ℚ) (s : FlightState), s.flashOpacity = "1" →
      (flightRun rand st sp fp ts s).flashFires = s.flashFires := by
  intro ts
  induction ts with
  | nil => intro s h; simp [flightRun]
  | cons t ts ih =>
      intro s h
      have hcond : ¬(0.85 ≤ clampedProgress st flightDuration t ∧ fp = true ∧
          (s.flashOpacity = "0" ∨ s.flashOpacity = "")) := by
        rintro ⟨-, -, h0 | h0⟩ <;> rw [h] at h0 <;> simp at h0
      have h2 : (animateFrame rand st sp fp t s).flashFires = s.flashFires := by
        simp [animateFrame, hcond]
      have h1 : (animateFrame rand st sp fp t s).flashOpacity = "1" := by
        simp [animateFrame, hcond, h]
      by_cases hc : (1 : ℚ) ≤ clampedProgress st flightDuration t
      · simp [flightRun, hc, h2]
      · simp only [flightRun, if_neg hc]
        rw [ih _ h1, h2]

/-- C2: across one flight run starting with the flash overlay transparent,
the flash block executes exactly at the first delivered frame whose
progress is at least the 0.85 threshold (and never again on later frames
of the same run), i.e. the list of firing timestamps is the at-most-one
element list specFirstThresholdFrame. -/
theorem c2_flash_fires_once (rand : ℕ → ℚ) (startTime : ℚ) (startPos : V3) :
    ∀ (ts : List ℚ) (s : FlightState),
      (s.flashOpacity = "0" ∨ s.flashOpacity = "") → s.flashFires = [] →
      (flightRun rand startTime startPos true ts s).flashFires =
        specFirstThresholdFrame startTime ts := by
  intro ts
  induction ts with
  | nil =>
      intro s hop hf
      simp [flightRun, specFirstThresholdFrame, hf]
  | cons t ts ih =>
      intro s hop hf
      by_cases hp : (0.85 : ℚ) ≤ clampedProgress startTime flightDuration t
      · have hfind : List.find?
            (fun x => decide ((0.85 : ℚ) ≤
              clampedProgress startTime flightDuration x)) (t :: ts) = some t :=
          List.find?_cons_of_pos _ (by simpa using hp)
        have hspec : specFirstThresholdFrame startTime (t :: ts) = [t] := by
          unfold specFirstThresholdFrame
          rw [hfind]
        have hFires : (animateFrame rand startTime startPos true t s).flashFires =
            s.flashFires ++ [t] := by
          rcases hop with hO | hO <;> simp [animateFrame, hp, hO]
        have hOp1 : (animateFrame rand startTime startPos true t s).flashOpacity =
            "1" := by
          rcases hop with hO | hO <;> simp [animateFrame, hp, hO]
        by_cases h1 : (1 : ℚ) ≤ clampedProgress startTime flightDuration t
        · simp [flightRun, h1, hFires, hf, hspec]
        · simp only [flightRun, if_neg h1]
          rw [flightRun_noRefire rand startTime startPos true ts _ hOp1,
            hFires, hf, hspec]
          simp
      · have hfind : List.find?
            (fun x => decide ((0.85 : ℚ) ≤
              clampedProgress startTime flightDuration x)) (t :: ts) =
            List.find?
              (fun x => decide ((0.85 : ℚ) ≤
                clampedProgress startTime flightDuration x)) ts :=
          List.find?_cons_of_neg _ (by simpa using hp)
        have hspec : specFirstThresholdFrame startTime (t :: ts) =
            specFirstThresholdFrame startTime ts := by
          unfold specFirstThresholdFrame
          rw [hfind]
        have h1 : ¬(1 : ℚ) ≤ clampedProgress startTime flightDuration t :=
          fun hh => hp (le_trans (by norm_num) hh)
        have hFires : (animateFrame rand startTime startPos true t s).flashFires =
            s.flashFires := by
          simp [animateFrame, hp]
        have hOp : (animateFrame rand startTime startPos true t s).flashOpacity =
            s.flashOpacity := by
          simp [animateFrame, hp]
        simp only [flightRun, if_neg h1]
        rw [ih _ (by rw [hOp]; exact hop) (by rw [hFires]; exact hf), hspec]

/-- Witness for C2: frames at 2125, 2200 and 2500 ms of the 2500 ms flight
all satisfy the 0.85 threshold, yet the flash fires only at 2125. -/
theorem c2_witness :
    (flightRun (fun _ => 0) 0 ⟨0, 0, 6⟩ true [2125, 2200, 2500]
        ⟨⟨0, 0, 6⟩, 75, "", [], none, 0⟩).flashFires = [2125] := by
  have h := c2_flash_fires_once (fun _ => 0) 0 ⟨0, 0, 6⟩ [2125, 2200, 2500]
    ⟨⟨0, 0, 6⟩, 75, "", [], none, 0⟩ (Or.inr rfl) rfl
  rw [h]
  norm_num [specFirstThresholdFrame, List.find?, clampedProgress,
    flightDuration, min_def]

/-- The flight loop reaches its completion branch exactly when some
delivered frame has progress 1. -/
theorem flightRun_completedAt (rand : ℕ → ℚ) (st : ℚ) (sp : V3) (fp : Bool) :
    ∀ (ts : List ℚ) (s : FlightState), s.completedAt = none →
      ((flightRun rand st sp fp ts s).completedAt ≠ none ↔
        ∃ t ∈ ts, 1 ≤ clampedProgress st flightDuration t) := by
  intro ts
  induction ts with
  | nil => intro s h; simp [flightRun, h]
  | cons t ts ih =>
      intro s h
      by_cases h1 : (1 : ℚ) ≤ clampedProgress st flightDuration t
      · have hsome : (animateFrame rand st sp fp t s).completedAt = some t := by
          simp [animateFrame, h1]
        simp only [flightRun, if_pos h1, hsome]
        simp only [ne_eq, reduceCtorEq, not_false_eq_true, true_iff]
        exact ⟨t, by simp, h1⟩
      · have hnone : (animateFrame rand st sp fp t s).completedAt = none := by
          simp [animateFrame, h1, h]
        simp only [flightRun, if_neg h1]
        rw [ih _ hnone]
        constructor
        · rintro ⟨x, hx, hpx⟩
          exact ⟨x, List.mem_cons_of_mem _ hx, hpx⟩
        · rintro ⟨x, hx, hpx⟩
          rcases List.mem_cons.mp hx with hxe | hx2
          · exact absurd (hxe ▸ hpx) h1
          · exact ⟨x, hx2, hpx⟩

/-- The camera return loop reaches its completion branch exactly when some
delivered frame has progress 1. -/
theorem animateCameraReturn_done (cp sp : V3) (rst : ℚ) :
    ∀ (ts : List ℚ) (pos : V3),
      ((animateCameraReturn cp sp rst ts pos).2 = true ↔
        ∃ t ∈ ts, 1 ≤ clampedProgress rst returnDuration t) := by
  intro ts
  induction ts with
  | nil => intro pos; simp [animateCameraReturn]
  | cons t ts ih =>
      intro pos
      by_cases h1 : (1 : ℚ) ≤ clampedProgress rst returnDuration t
      · simp only [animateCameraReturn, if_pos h1]
        simp only [true_iff]
        exact ⟨t, by simp, h1⟩
      · simp only [animateCameraReturn, if_neg h1]
        rw [ih _]
        constructor
        · rintro ⟨x, hx, hpx⟩
          exact ⟨x, List.mem_cons_of_mem _ hx, hpx⟩
        · rintro ⟨x, hx, hpx⟩
          rcases List.mem_cons.mp hx with hxe | hx2
          · exact absurd (hxe ▸ hpx) h1
          · exact ⟨x, hx2, hpx⟩

/-- A run whose flight reaches progress 1 and whose camera return reaches
progress 1 shows the menu exactly once and ends with all activation flags
cleared. -/
theorem portalRun_completes (rand : ℕ → ℚ) (st rst : ℚ) (sp : V3)
    (fts rts : List ℚ) (s0 : SysState)
    (h0 : s0.flight.completedAt = none)
    (hf : ∃ t ∈ fts, 1 ≤ clampedProgress st flightDuration t)
    (hr : ∃ t ∈ rts, 1 ≤ clampedProgress rst returnDuration t) :
    (portalRun rand st sp true fts rst rts s0).menuShown = s0.menuShown + 1 ∧
    (portalRun rand st sp true fts rst rts s0).isAnimating = false ∧
    (portalRun rand st sp true fts rst rts s0).portalActivated = false ∧
    (portalRun rand st sp true fts rst rts s0).entering = false := by
  have hc : (flightRun rand st sp true fts s0.flight).completedAt ≠ none :=
    (flightRun_completedAt rand st sp true fts s0.flight h0).mpr hf
  have hdone : ∀ (cp pos : V3),
      (animateCameraReturn cp sp rst rts pos).2 = true :=
    fun cp pos => (animateCameraReturn_done cp sp rst rts pos).mpr hr
  rcases hcc : (flightRun rand st sp true fts s0.flight).completedAt with _ | tc
  · exact absurd hcc hc
  · simp [portalRun, hcc, hdone]

/-- A flight loop given no frame with progress 1 never sets its
completion timestamp. -/
theorem flightRun_completedAt_none (rand : ℕ → ℚ) (st : ℚ) (sp : V3)
    (fp : Bool) (ts : List ℚ) (s : FlightState) (h0 : s.completedAt = none)
    (hf : ¬∃ t ∈ ts, 1 ≤ clampedProgress st flightDuration t) :
    (flightRun rand st sp fp ts s).completedAt = none := by
  by_contra hne
  exact hf ((flightRun_completedAt rand st sp fp ts s h0).mp hne)

/-- A run whose flight never reaches progress 1 runs nothing after the
flight loop: the system state keeps its flags and menu count. -/
theorem portalRun_aborted (rand : ℕ → ℚ) (st rst : ℚ) (sp : V3)
    (fts rts : List ℚ) (s0 : SysState)
    (h0 : s0.flight.completedAt = none)
    (hf : ¬∃ t ∈ fts, 1 ≤ clampedProgress st flightDuration t) :
    portalRun rand st sp true fts rst rts s0 =
      { s0 with flight := flightRun rand st sp true fts s0.flight } := by
  have hc : (flightRun rand st sp true fts s0.flight).completedAt = none :=
    flightRun_completedAt_none rand st sp true fts s0.flight h0 hf
  simp [portalRun, hc]

/-- C5 evaluated at the failing input: the scene module (part_007) creates
the camera with fov 50; after a flight started at t = 0 stalls (one frame
at 1000 ms, none reaching progress 1) the failsafe restores the saved
start position, clears all three activation flags and logs the
diagnostic, but writes the constant base fov 75 — it does not restore the
field of view to its start value 50. -/
theorem c5_watchdog_code_bug :
    (⟨⟨⟨0, 0, 6⟩, 50, "", [], none, 0⟩, true, true, true, 0, []⟩ :
        SysState).flight.fov = 50 ∧
    (failsafe ⟨0, 0, 6⟩
        (portalRun (fun _ => 0) 0 ⟨0, 0, 6⟩ true [1000] 0 []
          ⟨⟨⟨0, 0, 6⟩, 50, "", [], none, 0⟩, true, true, true, 0,
            []⟩)).flight.camPos = ⟨0, 0, 6⟩ ∧
    (failsafe ⟨0, 0, 6⟩
        (portalRun (fun _ => 0) 0 ⟨0, 0, 6⟩ true [1000] 0 []
          ⟨⟨⟨0, 0, 6⟩, 50, "", [], none, 0⟩, true, true, true, 0,
            []⟩)).entering = false ∧
    (failsafe ⟨0, 0, 6⟩
        (portalRun (fun _ => 0) 0 ⟨0, 0, 6⟩ true [1000] 0 []
          ⟨⟨⟨0, 0, 6⟩, 50, "", [], none, 0⟩, true, true, true, 0,
            []⟩)).isAnimating = false ∧
    (failsafe ⟨0, 0, 6⟩
        (portalRun (fun _ => 0) 0 ⟨0, 0, 6⟩ true [1000] 0 []
          ⟨⟨⟨0, 0, 6⟩, 50, "", [], none, 0⟩, true, true, true, 0,
            []⟩)).portalActivated = false ∧
    (failsafe ⟨0, 0, 6⟩
        (portalRun (fun _ => 0) 0 ⟨0, 0, 6⟩ true [1000] 0 []
          ⟨⟨⟨0, 0, 6⟩, 50, "", [], none, 0⟩, true, true, true, 0,
            []⟩)).log = [failsafeDiagnostic] ∧
    (failsafe ⟨0, 0, 6⟩
        (portalRun (fun _ => 0) 0 ⟨0, 0, 6⟩ true [1000] 0 []
          ⟨⟨⟨0, 0, 6⟩, 50, "", [], none, 0⟩, true, true, true, 0,
            []⟩)).flight.fov = 75 ∧
    ¬(failsafe ⟨0, 0, 6⟩
        (portalRun (fun _ => 0) 0 ⟨0, 0, 6⟩ true [1000] 0 []
          ⟨⟨⟨0, 0, 6⟩, 50, "", [], none, 0⟩, true, true, true, 0,
            []⟩)).flight.fov = 50 := by
  have hf : ¬∃ t ∈ [(1000 : ℚ)], 1 ≤ clampedProgress 0 flightDuration t := by
    rintro ⟨t, ht, hpt⟩
    simp only [List.mem_singleton] at ht
    subst ht
    norm_num [clampedProgress, flightDuration, min_def] at hpt
  have hb := portalRun_aborted (fun _ => 0) 0 0 ⟨0, 0, 6⟩ [1000] []
    ⟨⟨⟨0, 0, 6⟩, 50, "", [], none, 0⟩, true, true, true, 0, []⟩ rfl hf
  rw [hb]
  refine ⟨rfl, by simp [failsafe], by simp [failsafe], by simp [failsafe],
    by simp [failsafe], by simp [failsafe], by simp [failsafe], ?_⟩
  simp [failsafe]

/-- C8 counterexample: a run whose flight stalls after one frame at
1000 ms is force-aborted by the watchdog (entering cleared, diagnostic
logged, no menu yet), but because the failsafe does not cancel the
requestAnimationFrame loop, when the frames resume (flight frame at
5000 ms, return frame at 5900 ms) the completion action still executes
and the menu is shown — contradicting "never executed on a run force-
aborted by the watchdog". -/
theorem c8_counterexample :
    (failsafe ⟨0, 0, 6⟩
        (portalRun (fun _ => 0) 0 ⟨0, 0, 6⟩ true [1000] 0 []
          ⟨⟨⟨0, 0, 6⟩, 50, "", [], none, 0⟩, true, true, true, 0,
            []⟩)).entering = false ∧
    (failsafe ⟨0, 0, 6⟩
        (portalRun (fun _ => 0) 0 ⟨0, 0, 6⟩ true [1000] 0 []
          ⟨⟨⟨0, 0, 6⟩, 50, "", [], none, 0⟩, true, true, true, 0,
            []⟩)).log = [failsafeDiagnostic] ∧
    (failsafe ⟨0, 0, 6⟩
        (portalRun (fun _ => 0) 0 ⟨0, 0, 6⟩ true [1000] 0 []
          ⟨⟨⟨0, 0, 6⟩, 50, "", [], none, 0⟩, true, true, true, 0,
            []⟩)).menuShown = 0 ∧
    (portalRun (fun _ => 0) 0 ⟨0, 0, 6⟩ true [5000] 5004 [5900]
        (failsafe ⟨0, 0, 6⟩
          (portalRun (fun _ => 0) 0 ⟨0, 0, 6⟩ true [1000] 0 []
            ⟨⟨⟨0, 0, 6⟩, 50, "", [], none, 0⟩, true, true, true, 0,
              []⟩))).menuShown = 1 := by
  have hf : ¬∃ t ∈ [(1000 : ℚ)], 1 ≤ clampedProgress 0 flightDuration t := by
    rintro ⟨t, ht, hpt⟩
    simp only [List.mem_singleton] at ht
    subst ht
    norm_num [clampedProgress, flightDuration, min_def] at hpt
  have hcn := flightRun_completedAt_none (fun _ => 0) 0 ⟨0, 0, 6⟩ true [1000]
    ⟨⟨0, 0, 6⟩, 50, "", [], none, 0⟩ rfl hf
  have hb := portalRun_aborted (fun _ => 0) 0 0 ⟨0, 0, 6⟩ [1000] []
    ⟨⟨⟨0, 0, 6⟩, 50, "", [], none, 0⟩, true, true, true, 0, []⟩ rfl hf
  rw [hb]
  refine ⟨by simp [failsafe], by simp [failsafe], by simp [failsafe], ?_⟩
  have hW1 : (failsafe ⟨0, 0, 6⟩
      { (⟨⟨⟨0, 0, 6⟩, 50, "", [], none, 0⟩, true, true, true, 0, []⟩ :
          SysState) with
        flight := flightRun (fun _ => 0) 0 ⟨0, 0, 6⟩ true [1000]
          ⟨⟨0, 0, 6⟩, 50, "", [], none, 0⟩ }).flight.completedAt = none := by
    simp [failsafe, hcn]
  have h := portalRun_completes (fun _ => 0) 0 5004 ⟨0, 0, 6⟩ [5000] [5900] _
    hW1
    ⟨5000, by simp, by norm_num [clampedProgress, flightDuration, min_def]⟩
    ⟨5900, by simp, by norm_num [clampedProgress, returnDuration, min_def]⟩
  rw [h.1]
  simp [failsafe]

/-- C8 amended: the completion action (menu display, then clearing the
activation flags after the tail delay) runs exactly once on a run whose
flight and camera return both reach progress 1; on a run whose flight is
stuck it is not executed as long as no further frames reach the stuck
flight loop, also after the watchdog force-reset; but because the failsafe
does not cancel the requestAnimationFrame loop, a watchdog-aborted run
whose frames later resume and reach progress 1 still executes the
completion action. -/
theorem c8_completion_amended (rand : ℕ → ℚ)
    (startTime returnStart resumeReturnStart : ℚ) (startPos : V3)
    (fts rts ftsResumed rtsResumed : List ℚ)
    (s0 : SysState) (hc : s0.flight.completedAt = none)
    (hm : s0.menuShown = 0) (he : s0.entering = true) :
    ((∃ t ∈ fts, 1 ≤ clampedProgress startTime flightDuration t) →
     (∃ t ∈ rts, 1 ≤ clampedProgress returnStart returnDuration t) →
      (portalRun rand startTime startPos true fts returnStart rts s0).menuShown
          = 1 ∧
      (portalRun rand startTime startPos true fts returnStart rts
          s0).isAnimating = false ∧
      (portalRun rand startTime startPos true fts returnStart rts
          s0).portalActivated = false ∧
      (portalRun rand startTime startPos true fts returnStart rts
          s0).entering = false) ∧
    ((¬∃ t ∈ fts, 1 ≤ clampedProgress startTime flightDuration t) →
      (portalRun rand startTime startPos true fts returnStart rts s0).menuShown
          = 0 ∧
      (portalRun rand startTime startPos true fts returnStart rts
          s0).entering = true ∧
      (failsafe startPos
          (portalRun rand startTime startPos true fts returnStart rts
            s0)).menuShown = 0 ∧
      (failsafe startPos
          (portalRun rand startTime startPos true fts returnStart rts
            s0)).entering = false ∧
      (failsafe startPos
          (portalRun rand startTime startPos true fts returnStart rts
            s0)).isAnimating = false ∧
      (failsafe startPos
          (portalRun rand startTime startPos true fts returnStart rts
            s0)).portalActivated = false) ∧
    ((¬∃ t ∈ fts, 1 ≤ clampedProgress startTime flightDuration t) →
     (∃ t ∈ ftsResumed, 1 ≤ clampedProgress startTime flightDuration t) →
     (∃ t ∈ rtsResumed,
        1 ≤ clampedProgress resumeReturnStart returnDuration t) →
      (portalRun rand startTime startPos true ftsResumed resumeReturnStart
          rtsResumed
          (failsafe startPos
            (portalRun rand startTime startPos true fts returnStart rts
              s0))).menuShown = 1) := by
  refine ⟨?_, ?_, ?_⟩
  · intro hf hr
    have h := portalRun_completes rand startTime returnStart startPos fts rts
      s0 hc hf hr
    exact ⟨by rw [h.1, hm], h.2.1, h.2.2.1, h.2.2.2⟩
  · intro hf
    have h := portalRun_aborted rand startTime returnStart startPos fts rts
      s0 hc hf
    rw [h]
    simp [failsafe, he, hm]
  · intro hf hfa hra
    have hcn := flightRun_completedAt_none rand startTime startPos true fts
      s0.flight hc hf
    have hb := portalRun_aborted rand startTime returnStart startPos fts rts
      s0 hc hf
    rw [hb]
    have hW1 : (failsafe startPos
        { s0 with
          flight := flightRun rand startTime startPos true fts
            s0.flight }).flight.completedAt = none := by
      simp [failsafe, he, hcn]
    have h := portalRun_completes rand startTime resumeReturnStart startPos
      ftsResumed rtsResumed _ hW1 hfa hra
    rw [h.1]
    simp [failsafe, he, hm]

/-- Witness for the amended C8: a run with a completing flight frame at
2500 ms and a completing return frame shows the menu exactly once. -/
theorem c8_witness :
    (portalRun (fun _ => 0) 0 ⟨0, 0, 6⟩ true [2500] 0 [800]
        ⟨⟨⟨0, 0, 6⟩, 75, "", [], none, 0⟩, true, true, true, 0,
          []⟩).menuShown = 1 := by
  have h := (c8_completion_amended (fun _ => 0) 0 0 0 ⟨0, 0, 6⟩ [2500] [800]
    [] [] ⟨⟨⟨0, 0, 6⟩, 75, "", [], none, 0⟩, true, true, true, 0, []⟩
    rfl rfl rfl).1
    ⟨2500, by simp, by norm_num [clampedProgress, flightDuration]⟩
    ⟨800, by simp, by norm_num [clampedProgress, returnDuration]⟩
  exact h.1

/-- C3 amended: a throw by an effect update in the shared try block of
the render loop skips the remaining updates of that tick (particles, hover), but
the frame is still rendered and the separately driven activation sequence
still runs to completion and returns to the idle flags. -/
theorem c3_fault_isolation_amended (tk : EffectsTick) (rand : ℕ → ℚ)
    (startTime returnStart : ℚ) (startPos : V3) (fts rts : List ℚ)
    (s0 : SysState) :
    (animateEffects tk).rendered = true ∧
    (tk.shakePresent = true → tk.shakeThrows = true →
      (animateEffects tk).particlesUpdated = false ∧
      (animateEffects tk).hoverUpdated = false) ∧
    (s0.flight.completedAt = none →
      (∃ t ∈ fts, 1 ≤ clampedProgress startTime flightDuration t) →
      (∃ t ∈ rts, 1 ≤ clampedProgress returnStart returnDuration t) →
      (portalRun rand startTime startPos true fts returnStart rts s0).menuShown
          = s0.menuShown + 1 ∧
      (portalRun rand startTime startPos true fts returnStart rts
          s0).entering = false) := by
  refine ⟨rfl, ?_, ?_⟩
  · intro h1 h2
    simp [animateEffects, h1, h2]
  · intro h0 hf hr
    have h := portalRun_completes rand startTime returnStart startPos fts rts
      s0 h0 hf hr
    exact ⟨h.1, h.2.2.2⟩

/-- Witness for the amended C3 statement: with a throwing shake update the
tick still renders, skips the particle update, and an independent
completing run still shows the menu. -/
theorem c3_witness :
    (animateEffects ⟨true, true, true, false, false⟩).rendered = true ∧
    (animateEffects ⟨true, true, true, false, false⟩).particlesUpdated = false ∧
    (portalRun (fun _ => 0) 0 ⟨0, 0, 7⟩ true [2600] 0 [900]
        ⟨⟨⟨0, 0, 7⟩, 75, "", [], none, 0⟩, true, true, true, 0,
          []⟩).menuShown = 1 := by
  have h := c3_fault_isolation_amended ⟨true, true, true, false, false⟩
    (fun _ => 0) 0 0 ⟨0, 0, 7⟩ [2600] [900]
    ⟨⟨⟨0, 0, 7⟩, 75, "", [], none, 0⟩, true, true, true, 0, []⟩
  refine ⟨h.1, (h.2.1 rfl rfl).1, ?_⟩
  have h3 := h.2.2 rfl
    ⟨2600, by simp, by norm_num [clampedProgress, flightDuration]⟩
    ⟨900, by simp, by norm_num [clampedProgress, returnDuration]⟩
  simpa using h3.1

end Portal
